import Mathlib

/-!
Verification of the gin-proc back-end (src/back-end/service.py and
src/back-end/server.py) against its specification.

The Python source is shallowly embedded: each service function becomes a
Lean function over explicit state values.  Remote hosts (the GIN git host
and the Drone CI host) are modelled by the state they keep (token lists,
SSH-key registries, per-repository secret stores); network responses that
the source checks are derived from that state, and responses that depend
on host-side acceptance (e.g. whether a POST returns 200) are supplied as
oracle parameters.  Python file handles are modelled with an explicit read
position, so that a second `read()` on the same handle returns the empty
string, exactly as in CPython.
-/

namespace GinProc

/-! ## Drone secret model

`drone_write_secret`, `drone_update_secret` and `drone_ensure_secrets`
from src/back-end/service.py, lines 87-177. -/

/-- The fixed secret name used by the service (`DRONE_PRIVATE_SSH_KEY`). -/
def SECRET_NAME : String := "DRONE_PRIVATE_SSH_KEY"

/-- A secret stored by the Drone CI host for one repository. -/
structure DroneSecret where
  name : String
  data : String
deriving DecidableEq, Repr

/-- A repository record as returned by the Drone API (`/api/user/repos`).
`slug` is, per the source comment, "Drone equivalent for repository
full_name"; `full_name` is the field `drone_write_secret` reads. -/
structure DroneRepo where
  slug : String
  full_name : String
  name : String
  active : Bool
deriving DecidableEq, Repr

/-- The Drone host's secret store: repository path to its list of secrets. -/
abbrev DroneStore := List (String × List DroneSecret)

/-- Secrets the Drone host holds for a repository path (GET `/secrets`). -/
def getSecrets (store : DroneStore) (repopath : String) : List DroneSecret :=
  match store.find? (fun e => e.1 == repopath) with
  | some e => e.2
  | none => []

/-- Replace (or create) the secret list of one repository path. -/
def setSecrets (store : DroneStore) (repopath : String)
    (s : List DroneSecret) : DroneStore :=
  if store.any (fun e => e.1 == repopath) then
    store.map (fun e => if e.1 == repopath then (e.1, s) else e)
  else store ++ [(repopath, s)]

/-- Host-side PATCH semantics: update the first secret with the given name. -/
def patchFirst : List DroneSecret → String → String → List DroneSecret
  | [], _, _ => []
  | s :: rest, name, data =>
    if s.name == name then { s with data := data } :: rest
    else s :: patchFirst rest name data

/-- A Python file handle: contents plus current read position.  `read`
returns everything from the position on and leaves the position at the
end, so a second `read` yields `""`. -/
structure PyFile where
  content : String
  pos : Nat
deriving Repr

/-- `file.read()`. -/
def PyFile.read (h : PyFile) : String × PyFile :=
  (h.content.drop h.pos, { h with pos := h.content.length })

/-- `drone_update_secret(secret, data, repopath)` (service.py 118-137):
PATCH the named secret; the host answers 200 exactly when the secret
exists, otherwise the function raises `ServerError`.  The host state is
returned in both cases, since server-side effects survive a client-side
exception. -/
def drone_update_secret (secret : String) (data : String) (repopath : String)
    (store : DroneStore) : Except String Unit × DroneStore :=
  if (getSecrets store repopath).any (fun s => s.name == secret) then
    (Except.ok (),
      setSecrets store repopath (patchFirst (getSecrets store repopath) secret data))
  else
    (Except.error ("Secret could not be updated in '" ++ repopath ++ "'"), store)

/-- `drone_write_secret(key, repo)` (service.py 87-115): the function
first projects `repopath = repo["full_name"]`, then POSTs a new secret
named `DRONE_PRIVATE_SSH_KEY` with the given data to that path.  `postOk`
is the oracle saying whether the Drone host answers 200 for that
repository; on any other status the function raises `ServerError` naming
the repository. -/
def drone_write_secret (data : String) (repopath : String)
    (postOk : String → Bool) (store : DroneStore) :
    Except String Unit × DroneStore :=
  if postOk repopath then
    (Except.ok (),
      setSecrets store repopath
        (getSecrets store repopath ++ [⟨SECRET_NAME, data⟩]))
  else
    (Except.error ("Secret could not be installed in `" ++ repopath ++ "`"),
      store)

/-- The loop body of `drone_ensure_secrets` (service.py 154-175) for a
single repository.  Mirrors the source exactly: inactive repositories are
skipped (`continue`); the key file is opened fresh per repository; if a
secret with the fixed name is found, `drone_update_secret` is called with
the first `read()`; then — with no `else` on the inner `for` —
`drone_write_secret` is called unconditionally with the next `read()` of
the same, already consumed, handle. -/
def ensureSecretsStep (key : String) (postOk : String → Bool)
    (r : DroneRepo) (store : DroneStore) : Except String Unit × DroneStore :=
  if !r.active then (Except.ok (), store)
  else
    let secrets := getSecrets store r.slug
    let h : PyFile := ⟨key, 0⟩
    if secrets.any (fun s => s.name == SECRET_NAME) then
      let r1 := h.read
      match drone_update_secret SECRET_NAME r1.1 r.slug store with
      | (Except.error e, store') => (Except.error e, store')
      | (Except.ok _, store') =>
        let r2 := r1.2.read
        drone_write_secret r2.1 r.full_name postOk store'
    else
      drone_write_secret (h.read).1 r.full_name postOk store

/-- The loop of `drone_ensure_secrets` (service.py 154-175): run
`ensureSecretsStep` on each repository in order, stopping at the first
raised error (the exception aborts the whole call, while the Drone host
keeps the secrets written so far). -/
def drone_ensure_secrets_go (key : String) (postOk : String → Bool) :
    List DroneRepo → DroneStore → Except String Unit × DroneStore
  | [], store => (Except.ok (), store)
  | r :: rest, store =>
    match ensureSecretsStep key postOk r store with
    | (Except.error e, store') => (Except.error e, store')
    | (Except.ok _, store') => drone_ensure_secrets_go key postOk rest store'

/-- `drone_ensure_secrets(user)` (service.py 140-177): iterate over the
user's Drone repositories and return `True` when the loop finishes. -/
def drone_ensure_secrets (key : String) (postOk : String → Bool)
    (repos : List DroneRepo) (store : DroneStore) :
    Except String Bool × DroneStore :=
  match drone_ensure_secrets_go key postOk repos store with
  | (Except.ok _, store') => (Except.ok true, store')
  | (Except.error e, store') => (Except.error e, store')

/-- The per-repository postcondition the specification asserts: exactly one
secret with the fixed name, its data byte-for-byte equal to the key. -/
def repoSecretsMatch (store : DroneStore) (repopath : String) (key : String) : Prop :=
  (getSecrets store repopath).filter (fun s => s.name == SECRET_NAME)
    = [⟨SECRET_NAME, key⟩]

/-- Running the loop on `rs1 ++ rs2` is running it on `rs1` and then, if no
error was raised, on `rs2` from the intermediate store. -/
theorem drone_ensure_secrets_go_append (key : String) (postOk : String → Bool)
    (rs1 rs2 : List DroneRepo) :
    ∀ store : DroneStore,
      (drone_ensure_secrets_go key postOk rs1 store).1 = Except.ok () →
      drone_ensure_secrets_go key postOk (rs1 ++ rs2) store
        = drone_ensure_secrets_go key postOk rs2
            (drone_ensure_secrets_go key postOk rs1 store).2 := by
  induction rs1 with
  | nil => intro store _; rfl
  | cons r rest ih =>
    intro store h
    simp only [List.cons_append, drone_ensure_secrets_go] at h ⊢
    rcases hs : ensureSecretsStep key postOk r store with ⟨es, store'⟩
    simp only [hs] at h ⊢
    cases es with
    | error e => simp at h
    | ok u => exact ih store' h

/-- C1: counter-evidence.  A run of `drone_ensure_secrets` over a single
active repository that already holds the secret `DRONE_PRIVATE_SSH_KEY`
(host accepting every request, so the run returns successfully) leaves the
repository with TWO secrets of that name — the updated one and a freshly
created one whose data is the empty string, the result of the second
`read()` of the consumed key-file handle — so the repository does not end
with exactly one secret matching the local private key. -/
theorem drone_ensure_secrets_existing_secret_bug :
    drone_ensure_secrets "KEY" (fun _ => true)
        [⟨"me/r1", "me/r1", "r1", true⟩]
        [("me/r1", [⟨SECRET_NAME, "OLD"⟩])]
      = (Except.ok true, [("me/r1", [⟨SECRET_NAME, "KEY"⟩, ⟨SECRET_NAME, ""⟩])])
    ∧ ¬ repoSecretsMatch
        [("me/r1", [⟨SECRET_NAME, "KEY"⟩, ⟨SECRET_NAME, ""⟩])] "me/r1" "KEY" := by
  constructor
  · rfl
  · unfold repoSecretsMatch
    decide

/-- C7: if the CI host returns a non-success response when creating the
secret for repository `X` (reached with no secret of the fixed name yet),
the run raises an error whose message names `X`, and the store is exactly
the one produced by the earlier repositories of the same call — the
secrets already written for them remain in place, with no rollback. -/
theorem drone_ensure_secrets_partial_failure
    (key : String) (postOk : String → Bool) (rs1 : List DroneRepo)
    (X : DroneRepo) (store : DroneStore)
    (hpre : (drone_ensure_secrets_go key postOk rs1 store).1 = Except.ok ())
    (hact : X.active = true)
    (hnosec : ((getSecrets (drone_ensure_secrets_go key postOk rs1 store).2 X.slug).any
        (fun s => s.name == SECRET_NAME)) = false)
    (hpost : postOk X.full_name = false) :
    drone_ensure_secrets key postOk (rs1 ++ [X]) store
      = (Except.error ("Secret could not be installed in `" ++ X.full_name ++ "`"),
         (drone_ensure_secrets_go key postOk rs1 store).2) := by
  have hs := drone_ensure_secrets_go_append key postOk rs1 [X] store hpre
  unfold drone_ensure_secrets
  rw [hs]
  simp only [drone_ensure_secrets_go, ensureSecretsStep, hact, hnosec, hpost,
    drone_write_secret, Bool.not_true, Bool.false_eq_true, if_false]

/-- Witness for C7 at a concrete input: two active repositories, the host
accepting the first and rejecting the second; the run fails naming the
second while the first repository's freshly written secret remains. -/
theorem drone_ensure_secrets_partial_failure_witness :
    drone_ensure_secrets "KEY" (fun p => p != "me/X")
        [⟨"me/A", "me/A", "A", true⟩, ⟨"me/X", "me/X", "X", true⟩] []
      = (Except.error "Secret could not be installed in `me/X`",
         [("me/A", [⟨SECRET_NAME, "KEY"⟩])]) := by
  exact drone_ensure_secrets_partial_failure "KEY" (fun p => p != "me/X")
    [⟨"me/A", "me/A", "A", true⟩] ⟨"me/X", "me/X", "X", true⟩ []
    rfl rfl rfl rfl

/-! ## SSH key model

`install_key`, `ensure_key` and the `gin_*` key helpers from
src/back-end/service.py, lines 180-300. -/

/-- The fixed key label (`PRIV_KEY = 'gin-proc'` in the source). -/
def PRIV_KEY : String := "gin-proc"

/-- An RSA key as produced by `rsa.generate_private_key`: the parameters
the library call receives, plus a generation tag standing in for the
randomness of the generator. -/
structure RSAKey where
  public_exponent : Nat
  key_size : Nat
  gen : Nat
deriving DecidableEq, Repr

/-- `rsa.generate_private_key(backend, public_exponent, key_size)`. -/
def rsa_generate_private_key (public_exponent key_size gen : Nat) : RSAKey :=
  ⟨public_exponent, key_size, gen⟩

/-- Serialized key material: records which encoding, format and encryption
the serialization calls received, and which key was serialized. -/
inductive KeyBytes
  | priv (encoding format encryption : String) (key : RSAKey)
  | pub (encoding format : String) (key : RSAKey)
deriving DecidableEq, Repr

/-- A byte-for-byte rendering of serialized key material, as stored in a
file and later read back as a string. Injective on `KeyBytes`. -/
def KeyBytes.serialize : KeyBytes → String
  | .priv encoding format encryption k =>
      "PRIV:" ++ encoding ++ ":" ++ format ++ ":" ++ encryption ++ ":"
        ++ toString k.public_exponent ++ ":" ++ toString k.key_size
        ++ ":" ++ toString k.gen
  | .pub encoding format k =>
      "PUB:" ++ encoding ++ ":" ++ format ++ ":"
        ++ toString k.public_exponent ++ ":" ++ toString k.key_size
        ++ ":" ++ toString k.gen

/-- A public key registered on the GIN host (`/api/v1/user/keys`). -/
structure GinKey where
  title : String
  url : String
  key : KeyBytes
deriving DecidableEq, Repr

/-- The joint state `ensure_key` acts on: the local SSH directory (its
mode, `none` when absent), the two key files (content and mode), and the
GIN host's key registry. -/
structure KeyState where
  sshDirMode : Option Nat
  privFile : Option (KeyBytes × Nat)
  pubFile : Option (KeyBytes × Nat)
  remoteKeys : List GinKey
deriving DecidableEq, Repr

/-- `gin_ensure_key(token)` (service.py 190-197): is a key titled
`gin-proc` registered on the host?  (The source returns `True` or falls
through to `None`; only its truthiness is ever used.) -/
def gin_ensure_key (st : KeyState) : Bool :=
  st.remoteKeys.any (fun k => k.title == PRIV_KEY)

/-- Host-side effect of `gin_delete_key(token)` (service.py 200-219): the
source DELETEs the first key titled `gin-proc` and returns as soon as the
host answers 204 (a well-behaved host always does). -/
def removeFirstTitled : List GinKey → String → List GinKey
  | [], _ => []
  | k :: rest, t => if k.title == t then rest else k :: removeFirstTitled rest t

/-- `gin_delete_key(token)` on a well-behaved host. -/
def gin_delete_key (st : KeyState) : KeyState :=
  { st with remoteKeys := removeFirstTitled st.remoteKeys PRIV_KEY }

/-- `proc_ensure_key(path)` (service.py 222-226): the private key file
exists locally (only the private file is checked). -/
def proc_ensure_key (st : KeyState) : Bool :=
  st.privFile.isSome

/-- `os.makedirs(SSH_PATH, exist_ok=True)`: create the directory if
absent (with the process default mode), keep it untouched otherwise. -/
def fsMakedirs (st : KeyState) : KeyState :=
  { st with sshDirMode := some (st.sshDirMode.getD 0o755) }

/-- `open(path, 'w+').write(...)` on the private key file: create or
truncate, keeping an existing file's mode (default mode when created). -/
def fsWritePriv (c : KeyBytes) (st : KeyState) : KeyState :=
  { st with privFile := some (c, (st.privFile.map Prod.snd).getD 0o644) }

/-- Same for the public key file. -/
def fsWritePub (c : KeyBytes) (st : KeyState) : KeyState :=
  { st with pubFile := some (c, (st.pubFile.map Prod.snd).getD 0o644) }

/-- `os.chmod(SSH_PATH, m)`. -/
def fsChmodDir (m : Nat) (st : KeyState) : KeyState :=
  { st with sshDirMode := st.sshDirMode.map (fun _ => m) }

/-- `os.chmod(<priv file>, m)`. -/
def fsChmodPriv (m : Nat) (st : KeyState) : KeyState :=
  { st with privFile := st.privFile.map (fun f => (f.1, m)) }

/-- `os.chmod(<pub file>, m)`. -/
def fsChmodPub (m : Nat) (st : KeyState) : KeyState :=
  { st with pubFile := st.pubFile.map (fun f => (f.1, m)) }

/-- `requests.post(GIN_ADDR + "/api/v1/user/keys", ...)`: the host
registers the posted public key under the given title (the source never
checks this response). -/
def gin_post_key (title : String) (c : KeyBytes) (st : KeyState) : KeyState :=
  { st with remoteKeys := st.remoteKeys ++ [⟨title, "", c⟩] }

/-- `install_key(SSH_PATH, token)` (service.py 229-264): generate a fresh
RSA-2048/65537 pair, write the private key as PEM/PKCS8 unencrypted and
the public key in OpenSSH format, chmod the directory to 0700 and both
files to 0600, and POST the public key to GIN under the fixed title. -/
def install_key (gen : Nat) (st : KeyState) : KeyState :=
  let key := rsa_generate_private_key 65537 2048 gen
  let private_key := KeyBytes.priv "PEM" "PKCS8" "NoEncryption" key
  let public_key := KeyBytes.pub "OpenSSH" "OpenSSH" key
  let st := fsMakedirs st
  let st := fsWritePriv private_key st
  let st := fsWritePub public_key st
  let st := fsChmodDir 0o700 st
  let st := fsChmodPriv 0o600 st
  let st := fsChmodPub 0o600 st
  gin_post_key PRIV_KEY public_key st

/-- `ensure_key(token)` (service.py 267-300).  Case (remote present,
local present): return `True`.  Case (remote present, local absent):
delete the remote key, then install a fresh pair; falls off the end of
the function, returning `None`.  Case (remote absent, local present):
`os.remove` both local files (the second `remove` raises if the public
file is missing, and the blanket `except` turns any exception into
`ServerError('Cannot ensure keys.')`), then install a fresh pair and
return `None`.  Case (absent, absent): install a fresh pair, `None`. -/
def ensure_key (gen : Nat) (st : KeyState) :
    Except String (Option Bool) × KeyState :=
  if gin_ensure_key st && proc_ensure_key st then
    (Except.ok (some true), st)
  else if gin_ensure_key st && !proc_ensure_key st then
    (Except.ok none, install_key gen (gin_delete_key st))
  else if !gin_ensure_key st && proc_ensure_key st then
    let st1 := { st with privFile := none }
    match st1.pubFile with
    | none => (Except.error "Cannot ensure keys.", st1)
    | some _ => (Except.ok none, install_key gen { st1 with pubFile := none })
  else
    (Except.ok none, install_key gen st)

/-- "Identical key-pair content in both locations": the host holds exactly
one key titled `gin-proc` and its content is the local public key file's
content. -/
def localRemoteIdentical (st : KeyState) : Prop :=
  (st.remoteKeys.filter (fun k => k.title == PRIV_KEY)).map (fun k => some k.key)
    = [st.pubFile.map Prod.fst]

/-- Removing the first key with a given title from a registry holding at
most one key of that title leaves none of that title. -/
theorem filter_removeFirstTitled (t : String) :
    ∀ l : List GinKey,
      (l.filter (fun k => k.title == t)).length ≤ 1 →
      (removeFirstTitled l t).filter (fun k => k.title == t) = []
  | [], _ => rfl
  | k :: rest, h => by
    by_cases hk : k.title == t
    · simp only [removeFirstTitled, hk, if_pos]
      simp only [List.filter_cons, hk, if_pos, List.length_cons,
        Nat.succ_le_succ_iff] at h
      exact List.length_eq_zero.mp (Nat.le_zero.mp h)
    · have h' : (rest.filter (fun k => k.title == t)).length ≤ 1 := by
        simpa [List.filter_cons, hk] using h
      simp [removeFirstTitled, hk, List.filter_cons,
        filter_removeFirstTitled t rest h']

/-- When no key titled `gin-proc` is registered, filtering for that title
gives the empty list. -/
theorem filter_eq_nil_of_gin_absent (st : KeyState) (h : gin_ensure_key st = false) :
    st.remoteKeys.filter (fun k => k.title == PRIV_KEY) = [] := by
  unfold gin_ensure_key at h
  rw [List.any_eq_false] at h
  exact List.filter_eq_nil_iff.mpr h

/-- The four observable fields after `install_key`. -/
theorem install_key_fields (gen : Nat) (st : KeyState) :
    (install_key gen st).privFile
        = some (KeyBytes.priv "PEM" "PKCS8" "NoEncryption"
            (rsa_generate_private_key 65537 2048 gen), 0o600)
    ∧ (install_key gen st).pubFile
        = some (KeyBytes.pub "OpenSSH" "OpenSSH"
            (rsa_generate_private_key 65537 2048 gen), 0o600)
    ∧ (install_key gen st).sshDirMode = some 0o700
    ∧ (install_key gen st).remoteKeys
        = st.remoteKeys ++ [⟨PRIV_KEY, "",
            KeyBytes.pub "OpenSSH" "OpenSSH" (rsa_generate_private_key 65537 2048 gen)⟩] :=
  ⟨rfl, rfl, rfl, rfl⟩

/-- Full characterization of `ensure_key` on consistent states (local
files in lockstep, at most one remote key of the fixed title): when both
sides are present it returns `True` and changes nothing; otherwise it
performs the deletions of its branch, installs a fresh pair on both sides
and falls off the end, returning `None`. -/
theorem ensure_key_characterization (gen : Nat) (st : KeyState)
    (hconsist : st.pubFile.isSome = st.privFile.isSome)
    (hone : (st.remoteKeys.filter (fun k => k.title == PRIV_KEY)).length ≤ 1) :
    if gin_ensure_key st && proc_ensure_key st then
      ensure_key gen st = (Except.ok (some true), st)
    else
      (ensure_key gen st).1 = Except.ok none
      ∧ ((ensure_key gen st).2).privFile.map Prod.fst
          = some (KeyBytes.priv "PEM" "PKCS8" "NoEncryption"
              (rsa_generate_private_key 65537 2048 gen))
      ∧ ((ensure_key gen st).2).pubFile.map Prod.fst
          = some (KeyBytes.pub "OpenSSH" "OpenSSH"
              (rsa_generate_private_key 65537 2048 gen))
      ∧ ((ensure_key gen st).2).remoteKeys.filter (fun k => k.title == PRIV_KEY)
          = [⟨PRIV_KEY, "", KeyBytes.pub "OpenSSH" "OpenSSH"
              (rsa_generate_private_key 65537 2048 gen)⟩] := by
  by_cases hg : gin_ensure_key st
  · by_cases hp : proc_ensure_key st
    · simp only [hg, hp, Bool.and_self, if_true]
      simp [ensure_key, hg, hp]
    · have hcond : (gin_ensure_key st && proc_ensure_key st) = false := by
        simp [hg, hp]
      have hres : ensure_key gen st
          = (Except.ok none, install_key gen (gin_delete_key st)) := by
        simp [ensure_key, hg, hp]
      rw [hcond]
      simp only [Bool.false_eq_true, if_false]
      rw [hres]
      refine ⟨rfl, rfl, rfl, ?_⟩
      show (install_key gen (gin_delete_key st)).remoteKeys.filter
          (fun k => k.title == PRIV_KEY) = _
      rw [(install_key_fields gen (gin_delete_key st)).2.2.2, List.filter_append]
      show (removeFirstTitled st.remoteKeys PRIV_KEY).filter
          (fun k => k.title == PRIV_KEY) ++ _ = _
      rw [filter_removeFirstTitled PRIV_KEY st.remoteKeys hone]
      rfl
  · have hfil : st.remoteKeys.filter (fun k => k.title == PRIV_KEY) = [] :=
      filter_eq_nil_of_gin_absent st (by simpa using hg)
    by_cases hp : proc_ensure_key st
    · have hpriv : st.privFile.isSome = true := hp
      have hpub : st.pubFile.isSome = true := by rw [hconsist]; exact hpriv
      rcases hq : st.pubFile with _ | f
      · rw [hq] at hpub; simp at hpub
      · have hcond : (gin_ensure_key st && proc_ensure_key st) = false := by
          simp [hg, hp]
        have hres : ensure_key gen st
            = (Except.ok none,
               install_key gen { st with privFile := none, pubFile := none }) := by
          simp [ensure_key, hg, hp, hq]
        rw [hcond]
        simp only [Bool.false_eq_true, if_false]
        rw [hres]
        refine ⟨rfl, rfl, rfl, ?_⟩
        show (install_key gen
            { st with privFile := none, pubFile := none }).remoteKeys.filter
            (fun k => k.title == PRIV_KEY) = _
        rw [(install_key_fields gen
            { st with privFile := none, pubFile := none }).2.2.2,
          List.filter_append]
        show st.remoteKeys.filter (fun k => k.title == PRIV_KEY) ++ _ = _
        rw [hfil]
        rfl
    · have hcond : (gin_ensure_key st && proc_ensure_key st) = false := by
        simp [hg, hp]
      have hres : ensure_key gen st = (Except.ok none, install_key gen st) := by
        simp [ensure_key, hg, hp]
      rw [hcond]
      simp only [Bool.false_eq_true, if_false]
      rw [hres]
      refine ⟨rfl, rfl, rfl, ?_⟩
      show (install_key gen st).remoteKeys.filter
          (fun k => k.title == PRIV_KEY) = _
      rw [(install_key_fields gen st).2.2.2, List.filter_append, hfil]
      rfl

/-- C10: every fresh key pair generated by `install_key` is RSA with a
2048-bit modulus and public exponent 65537; the private key is written
PEM/PKCS8 unencrypted, the public key in OpenSSH format; and afterwards
the key directory has mode 0700 and both key files have mode 0600. -/
theorem install_key_params_formats_modes (gen : Nat) (st : KeyState) :
    (install_key gen st).sshDirMode = some 0o700
    ∧ (install_key gen st).privFile
        = some (KeyBytes.priv "PEM" "PKCS8" "NoEncryption"
            (rsa_generate_private_key 65537 2048 gen), 0o600)
    ∧ (install_key gen st).pubFile
        = some (KeyBytes.pub "OpenSSH" "OpenSSH"
            (rsa_generate_private_key 65537 2048 gen), 0o600)
    ∧ rsa_generate_private_key 65537 2048 gen
        = ⟨65537, 2048, gen⟩ :=
  ⟨rfl, rfl, rfl, rfl⟩

end GinProc
namespace GinProc

/-- C2: counter-evidence.  First, from the (absent, absent) state
`ensure_key` returns `None` after installing the fresh pair, not a boolean
true result.  Second, from an (present, present) state whose local and
remote key contents disagree, `ensure_key` is a pure no-op, so the state
does not end with identical key-pair content in both locations. -/
theorem ensure_key_claim_counterexample :
    ((ensure_key 0 ⟨none, none, none, []⟩).1 = Except.ok none
      ∧ (Except.ok none : Except String (Option Bool)) ≠ Except.ok (some true))
    ∧ ((ensure_key 0 ⟨some 0o700,
          some (KeyBytes.priv "PEM" "PKCS8" "NoEncryption" ⟨65537, 2048, 1⟩, 0o600),
          some (KeyBytes.pub "OpenSSH" "OpenSSH" ⟨65537, 2048, 1⟩, 0o600),
          [⟨PRIV_KEY, "", KeyBytes.pub "OpenSSH" "OpenSSH" ⟨65537, 2048, 2⟩⟩]⟩).2
        = ⟨some 0o700,
          some (KeyBytes.priv "PEM" "PKCS8" "NoEncryption" ⟨65537, 2048, 1⟩, 0o600),
          some (KeyBytes.pub "OpenSSH" "OpenSSH" ⟨65537, 2048, 1⟩, 0o600),
          [⟨PRIV_KEY, "", KeyBytes.pub "OpenSSH" "OpenSSH" ⟨65537, 2048, 2⟩⟩]⟩
      ∧ ¬ localRemoteIdentical ⟨some 0o700,
          some (KeyBytes.priv "PEM" "PKCS8" "NoEncryption" ⟨65537, 2048, 1⟩, 0o600),
          some (KeyBytes.pub "OpenSSH" "OpenSSH" ⟨65537, 2048, 1⟩, 0o600),
          [⟨PRIV_KEY, "", KeyBytes.pub "OpenSSH" "OpenSSH" ⟨65537, 2048, 2⟩⟩]⟩) := by
  refine ⟨⟨rfl, by simp⟩, rfl, ?_⟩
  unfold localRemoteIdentical
  decide

/-- C2 (amended): for every consistent starting state (local key files
in lockstep, at most one remote key under the fixed title), `ensure_key`
converges to (present, present): in the (present, present) state it is a
no-op returning `True` (preserving whatever contents were there); in the
other three states it performs the table's action — delete the remote
key, or delete the local files, or nothing — installs a fresh pair with
identical content locally and remotely, and returns `None` (falsy), not
`True`. -/
theorem ensure_key_amended (gen : Nat) (st : KeyState)
    (hconsist : st.pubFile.isSome = st.privFile.isSome)
    (hone : (st.remoteKeys.filter (fun k => k.title == PRIV_KEY)).length ≤ 1) :
    if gin_ensure_key st && proc_ensure_key st then
      ensure_key gen st = (Except.ok (some true), st)
    else
      (ensure_key gen st).1 = Except.ok none
      ∧ ((ensure_key gen st).2).privFile.map Prod.fst
          = some (KeyBytes.priv "PEM" "PKCS8" "NoEncryption"
              (rsa_generate_private_key 65537 2048 gen))
      ∧ ((ensure_key gen st).2).pubFile.map Prod.fst
          = some (KeyBytes.pub "OpenSSH" "OpenSSH"
              (rsa_generate_private_key 65537 2048 gen))
      ∧ ((ensure_key gen st).2).remoteKeys.filter (fun k => k.title == PRIV_KEY)
          = [⟨PRIV_KEY, "", KeyBytes.pub "OpenSSH" "OpenSSH"
              (rsa_generate_private_key 65537 2048 gen)⟩] :=
  ensure_key_characterization gen st hconsist hone

/-- Witness for the amended C2 at the (absent, absent) state. -/
theorem ensure_key_amended_witness :
    (ensure_key 0 ⟨none, none, none, []⟩).1 = Except.ok none
    ∧ ((ensure_key 0 ⟨none, none, none, []⟩).2).privFile.map Prod.fst
        = some (KeyBytes.priv "PEM" "PKCS8" "NoEncryption"
            (rsa_generate_private_key 65537 2048 0))
    ∧ ((ensure_key 0 ⟨none, none, none, []⟩).2).pubFile.map Prod.fst
        = some (KeyBytes.pub "OpenSSH" "OpenSSH"
            (rsa_generate_private_key 65537 2048 0))
    ∧ ((ensure_key 0 ⟨none, none, none, []⟩).2).remoteKeys.filter
          (fun k => k.title == PRIV_KEY)
        = [⟨PRIV_KEY, "", KeyBytes.pub "OpenSSH" "OpenSSH"
            (rsa_generate_private_key 65537 2048 0)⟩] :=
  ensure_key_amended 0 ⟨none, none, none, []⟩ rfl (by decide)

end GinProc
namespace GinProc

/-! ## Token model

`gin_ensure_token` from src/back-end/service.py, lines 45-69. -/

/-- A personal access token registered on the GIN host. -/
structure GinToken where
  name : String
  sha1 : String
deriving DecidableEq, Repr

/-- The GIN host's token registry for one user, with a counter standing
in for the host's generation of fresh token hashes. -/
structure TokenState where
  tokens : List GinToken
  counter : Nat
deriving DecidableEq, Repr

/-- The fresh sha1 the host mints for a newly registered token. -/
def freshSha (st : TokenState) : String := "sha-" ++ toString st.counter

/-- `gin_ensure_token(username, password)` (service.py 45-69): list the
user's tokens; return the sha1 of the first one named `gin-proc`; if none
exists, POST a new token named `gin-proc` and return its sha1. -/
def gin_ensure_token (st : TokenState) : String × TokenState :=
  match st.tokens.find? (fun t => t.name == "gin-proc") with
  | some t => (t.sha1, st)
  | none =>
    let sha := freshSha st
    (sha, ⟨st.tokens ++ [⟨"gin-proc", sha⟩], st.counter + 1⟩)

/-- C6: token issuance is idempotent — two consecutive calls return the
same token and the second call leaves the registry untouched; after one
call the registry holds `max n 1` tokens named `gin-proc` (where `n` is
the starting count), so an existing token is reused and a new one is
registered only when none exists. -/
theorem gin_ensure_token_idempotent (st : TokenState) :
    (gin_ensure_token (gin_ensure_token st).2).1 = (gin_ensure_token st).1
    ∧ (gin_ensure_token (gin_ensure_token st).2).2 = (gin_ensure_token st).2
    ∧ ((gin_ensure_token st).2.tokens.filter (fun t => t.name == "gin-proc")).length
        = max (st.tokens.filter (fun t => t.name == "gin-proc")).length 1 := by
  rcases hf : st.tokens.find? (fun t => t.name == "gin-proc") with _ | tk
  · have hfil : st.tokens.filter (fun t => t.name == "gin-proc") = [] := by
      rw [List.find?_eq_none] at hf
      exact List.filter_eq_nil_iff.mpr hf
    have h1 : gin_ensure_token st
        = (freshSha st, ⟨st.tokens ++ [⟨"gin-proc", freshSha st⟩], st.counter + 1⟩) := by
      unfold gin_ensure_token
      rw [hf]
    have hf2 : (st.tokens ++ [(⟨"gin-proc", freshSha st⟩ : GinToken)]).find?
        (fun t => t.name == "gin-proc") = some ⟨"gin-proc", freshSha st⟩ := by
      rw [List.find?_append, hf]
      rfl
    have h2 : gin_ensure_token
          (⟨st.tokens ++ [⟨"gin-proc", freshSha st⟩], st.counter + 1⟩ : TokenState)
        = (freshSha st,
           ⟨st.tokens ++ [⟨"gin-proc", freshSha st⟩], st.counter + 1⟩) := by
      unfold gin_ensure_token
      rw [hf2]
    rw [h1]
    refine ⟨?_, ?_, ?_⟩
    · show (gin_ensure_token _).1 = _
      rw [h2]
    · show (gin_ensure_token _).2 = _
      rw [h2]
    · show ((st.tokens ++ ([⟨"gin-proc", freshSha st⟩] : List GinToken)).filter
          (fun t => t.name == "gin-proc")).length = _
      rw [List.filter_append, hfil]
      rfl
  · have hptk : (tk.name == "gin-proc") = true := by
      have h := List.find?_some hf
      simpa using h
    have htk : tk ∈ st.tokens.filter (fun t => t.name == "gin-proc") :=
      List.mem_filter.mpr ⟨List.mem_of_find?_eq_some hf, hptk⟩
    have hlen : 1 ≤ (st.tokens.filter (fun t => t.name == "gin-proc")).length :=
      List.length_pos.mpr (List.ne_nil_of_mem htk)
    have h1 : gin_ensure_token st = (tk.sha1, st) := by
      unfold gin_ensure_token
      rw [hf]
    rw [h1]
    exact ⟨by rw [h1], by rw [h1], (Nat.max_eq_left hlen).symm⟩

end GinProc
namespace GinProc

/-! ## Login handler model

`User.login` from src/back-end/server.py, lines 39-53. -/

/-- The three possible outcomes of the login handler. -/
inductive LoginResp
  | success (token : String)
  | failed
  | err (msg : String)
deriving DecidableEq, Repr

/-- The HTTP status the handler pairs with each outcome. -/
def LoginResp.status : LoginResp → Nat
  | success _ => 200
  | failed => 401
  | err _ => 500

/-- `User.login` (server.py 39-53) after request parsing and a
successful `gin_ensure_token`: evaluate
`if ensure_key(token) and drone_ensure_secrets(username)`.  Python's
`and` short-circuits on the falsy `None` that `ensure_key` returns after
installing a fresh pair, in which case the handler answers
`('login failed', 401)` without calling `drone_ensure_secrets`; a raised
`ServerError` propagates to the route and becomes a 500.  The last
component of the result records whether `drone_ensure_secrets` was
called. -/
def user_login (gen : Nat) (tst : TokenState) (kst : KeyState)
    (postOk : String → Bool) (repos : List DroneRepo) (dst : DroneStore) :
    LoginResp × TokenState × KeyState × DroneStore × Bool :=
  let tok := gin_ensure_token tst
  match ensure_key gen kst with
  | (Except.error e, kst') => (LoginResp.err e, tok.2, kst', dst, false)
  | (Except.ok r, kst') =>
    if r == some true then
      match kst'.privFile with
      | none => (LoginResp.err "could not read key", tok.2, kst', dst, true)
      | some f =>
        match drone_ensure_secrets (f.1.serialize) postOk repos dst with
        | (Except.ok _, dst') => (LoginResp.success tok.1, tok.2, kst', dst', true)
        | (Except.error e, dst') => (LoginResp.err e, tok.2, kst', dst', true)
    else (LoginResp.failed, tok.2, kst', dst, false)

/-- A registry whose `gin-proc` filter is a singleton has a `gin-proc`
key. -/
theorem gin_present_of_filter_single (st : KeyState) (k : GinKey)
    (h : st.remoteKeys.filter (fun x => x.title == PRIV_KEY) = [k]) :
    gin_ensure_key st = true := by
  unfold gin_ensure_key
  rw [List.any_eq_true]
  have hm : k ∈ st.remoteKeys.filter (fun x => x.title == PRIV_KEY) := by
    rw [h]
    exact List.mem_singleton.mpr rfl
  rcases List.mem_filter.mp hm with ⟨hmem, hp⟩
  exact ⟨k, hmem, hp⟩

/-- After `gin_ensure_token`, at least one token named `gin-proc` is
registered. -/
theorem one_le_token_count (st : TokenState) :
    1 ≤ ((gin_ensure_token st).2.tokens.filter (fun t => t.name == "gin-proc")).length := by
  rcases hf : st.tokens.find? (fun t => t.name == "gin-proc") with _ | tk
  · have h1 : gin_ensure_token st
        = (freshSha st, ⟨st.tokens ++ [⟨"gin-proc", freshSha st⟩], st.counter + 1⟩) := by
      unfold gin_ensure_token
      rw [hf]
    rw [h1]
    show 1 ≤ ((st.tokens ++ ([⟨"gin-proc", freshSha st⟩] : List GinToken)).filter
        (fun t => t.name == "gin-proc")).length
    rw [List.filter_append]
    simp
  · have hptk : (tk.name == "gin-proc") = true := by
      have h := List.find?_some hf
      simpa using h
    have htk : tk ∈ st.tokens.filter (fun t => t.name == "gin-proc") :=
      List.mem_filter.mpr ⟨List.mem_of_find?_eq_some hf, hptk⟩
    have h1 : gin_ensure_token st = (tk.sha1, st) := by
      unfold gin_ensure_token
      rw [hf]
    rw [h1]
    exact List.length_pos.mpr (List.ne_nil_of_mem htk)

/-- C3: whenever the key pair is not already present both locally and
remotely, `ensure_key` falls off the end returning `None`, the login
conjunction short-circuits — `drone_ensure_secrets` is never called and
the Drone store is untouched — and the handler answers `login failed`
with HTTP 401, even though the token was ensured (a `gin-proc` token is
registered) and the fresh key pair was installed both locally and
remotely. -/
theorem login_fresh_install_returns_401
    (gen : Nat) (tst : TokenState) (kst : KeyState)
    (postOk : String → Bool) (repos : List DroneRepo) (dst : DroneStore)
    (hconsist : kst.pubFile.isSome = kst.privFile.isSome)
    (hone : (kst.remoteKeys.filter (fun k => k.title == PRIV_KEY)).length ≤ 1)
    (hnotboth : (gin_ensure_key kst && proc_ensure_key kst) = false) :
    (user_login gen tst kst postOk repos dst).1 = LoginResp.failed
    ∧ (user_login gen tst kst postOk repos dst).1.status = 401
    ∧ (user_login gen tst kst postOk repos dst).2.2.2.2 = false
    ∧ (user_login gen tst kst postOk repos dst).2.2.2.1 = dst
    ∧ gin_ensure_key (user_login gen tst kst postOk repos dst).2.2.1 = true
    ∧ proc_ensure_key (user_login gen tst kst postOk repos dst).2.2.1 = true
    ∧ 1 ≤ ((user_login gen tst kst postOk repos dst).2.1.tokens.filter
        (fun t => t.name == "gin-proc")).length := by
  have hchar := ensure_key_characterization gen kst hconsist hone
  rw [hnotboth] at hchar
  simp only [Bool.false_eq_true, if_false] at hchar
  rcases hchar with ⟨hr, hpriv, hpub, hrem⟩
  have hul : user_login gen tst kst postOk repos dst
      = (LoginResp.failed, (gin_ensure_token tst).2,
         (ensure_key gen kst).2, dst, false) := by
    unfold user_login
    rcases hek : ensure_key gen kst with ⟨r, kst'⟩
    rw [hek] at hr
    simp only at hr
    rw [hr]
    rfl
  rw [hul]
  refine ⟨rfl, rfl, rfl, rfl, ?_, ?_, ?_⟩
  · exact gin_present_of_filter_single _ _ hrem
  · show ((ensure_key gen kst).2).privFile.isSome = true
    rcases hq : ((ensure_key gen kst).2).privFile with _ | f
    · rw [hq] at hpriv
      simp at hpriv
    · rfl
  · exact one_le_token_count tst

end GinProc
namespace GinProc

/-- Witness for C3: empty starting state — no local key, no remote key,
no tokens. -/
theorem login_fresh_install_returns_401_witness :
    (user_login 0 ⟨[], 0⟩ ⟨none, none, none, []⟩ (fun _ => true) [] []).1
      = LoginResp.failed
    ∧ (user_login 0 ⟨[], 0⟩ ⟨none, none, none, []⟩ (fun _ => true) [] []).1.status
      = 401
    ∧ (user_login 0 ⟨[], 0⟩ ⟨none, none, none, []⟩ (fun _ => true) [] []).2.2.2.2
      = false
    ∧ (user_login 0 ⟨[], 0⟩ ⟨none, none, none, []⟩ (fun _ => true) [] []).2.2.2.1
      = []
    ∧ gin_ensure_key
        (user_login 0 ⟨[], 0⟩ ⟨none, none, none, []⟩ (fun _ => true) [] []).2.2.1
      = true
    ∧ proc_ensure_key
        (user_login 0 ⟨[], 0⟩ ⟨none, none, none, []⟩ (fun _ => true) [] []).2.2.1
      = true
    ∧ 1 ≤ ((user_login 0 ⟨[], 0⟩ ⟨none, none, none, []⟩
          (fun _ => true) [] []).2.1.tokens.filter
          (fun t => t.name == "gin-proc")).length :=
  login_fresh_install_returns_401 0 ⟨[], 0⟩ ⟨none, none, none, []⟩
    (fun _ => true) [] [] rfl (by decide) rfl

end GinProc

namespace GinProc

/-! ## Workflow pipeline model

`gin_clone`, `push`, `clean` and `configure` from
src/back-end/service.py, lines 323-402. -/

/-- Repository metadata fetched from GIN by `gin_get_repo_data`. -/
structure GinRepo where
  name : String
  full_name : String
  clone_url : String
deriving DecidableEq, Repr

/-- A filesystem path, as a list of components. -/
abbrev FsPath := List String

/-- The filesystem: the list of existing paths. -/
abbrev Fs := List FsPath

/-- All ancestors of a path, the path itself included. -/
def pathPrefixes (p : FsPath) : List FsPath :=
  (List.range (p.length + 1)).map (fun k => p.take k)

/-- `os.makedirs(p, exist_ok=True)`: the path and its ancestors exist. -/
def makedirs (p : FsPath) (fs : Fs) : Fs :=
  fs ++ pathPrefixes p

/-- `shutil.rmtree(d)`: remove everything at or below `d`. -/
def rmtree (d : FsPath) (fs : Fs) : Fs :=
  fs.filter (fun p => !(d.isPrefixOf p))

/-- `clean(path)` (service.py 345-350): `rmtree` raises when the path
does not exist. -/
def clean (path : FsPath) (fs : Fs) : Except String Fs :=
  if fs.contains path then Except.ok (rmtree path fs)
  else Except.error "No such file or directory"

/-- Render a path for use inside a subprocess argument list. -/
def FsPath.render (p : FsPath) : String :=
  String.intercalate "/" p

/-- `os.path.join(SSH_PATH, PRIV_KEY)`: the fixed local private key
path. -/
def sshKeyPath : String := "HOME/gin-proc/ssh/gin-proc"

/-- The process state `configure` acts on: filesystem, the
`GIT_SSH_COMMAND` environment variable, the set of Drone-enabled
repositories and the Drone secret store. -/
structure SysState where
  fs : Fs
  gitSsh : Option String
  droneEnabled : List String
  droneStore : DroneStore
deriving Repr

/-- `subprocess.call(cmd)`: returns the exit code given by the oracle
`callRet`. -/
def call (callRet : List String → Int) (cmd : List String) : Int :=
  callRet cmd

/-- `gin_clone(repo, author, path)` (service.py 323-331): make the clone
directory, run `git clone --depth=1` (exit code unchecked), and return
the clone path. -/
def gin_clone (callRet : List String → Int) (repo : GinRepo) (author : String)
    (path : FsPath) (st : SysState) : FsPath × SysState :=
  let clone_path := path ++ [author, repo.name]
  let st := { st with fs := makedirs clone_path st.fs }
  let _rc := call callRet
    ["git", "clone", "--depth=1", repo.clone_url, clone_path.render]
  (clone_path, st)

/-- `push(path, commit_message)` (service.py 334-342): `git add`,
`git commit`, `git push`, none of the exit codes checked; the tracked
state is unchanged whatever the exit codes are. -/
def push (callRet : List String → Int) (path : FsPath) (commit_message : String)
    (st : SysState) : SysState :=
  let _a := call callRet ["git", "add", ".", path.render]
  let _b := call callRet ["git", "commit", "-m", commit_message, path.render]
  let _c := call callRet ["git", "push", path.render]
  st

/-- The body of the `with tempfile.TemporaryDirectory()` block of
`configure` (service.py 389-396): clone, `create_drone_file` (an external
collaborator whose unexpected failure is the oracle `cdfErr`; on success
it writes exactly one file into the clone), `push`, `clean`. -/
def configureBody (callRet : List String → Int) (cdfErr : Option String)
    (repo : GinRepo) (username commit_message : String) (tmp : FsPath)
    (st : SysState) : Except String Unit × SysState :=
  let r := gin_clone callRet repo username tmp st
  let clone_path := r.1
  let st := r.2
  match cdfErr with
  | some e => (Except.error e, st)
  | none =>
    let st := { st with fs := st.fs ++ [clone_path ++ [".drone.yml"]] }
    let st := push callRet clone_path commit_message st
    match clean clone_path st.fs with
    | Except.error e => (Except.error e, st)
    | Except.ok fs' => (Except.ok (), { st with fs := fs' })

/-- `configure(...)` (service.py 353-402).  Step 1 fetches the repository
metadata (outcome `meta`); failure raises `ServiceError` before any side
effect.  Step 2 sets `os.environ['GIT_SSH_COMMAND']` (never restored).
Step 3 opens the scoped temporary directory `tmp`, whose recursive
removal the context manager performs on every exit of the block.  After
the block, `drone_enable_repo` (oracle `enableOk`) and
`drone_write_secret` with the private key file's contents. -/
def configure (meta : Except String GinRepo) (tmp : FsPath)
    (cdfErr : Option String) (callRet : List String → Int)
    (enableOk : Bool) (postOk : String → Bool) (key : String)
    (username commit_message : String) (st : SysState) :
    Except String Unit × SysState :=
  match meta with
  | Except.error e => (Except.error ("ServiceError: " ++ e), st)
  | Except.ok repo =>
    let st := { st with gitSsh := some ("ssh -i " ++ sshKeyPath) }
    let st := { st with fs := makedirs tmp st.fs }
    let body := configureBody callRet cdfErr repo username commit_message tmp st
    let st2 := { body.2 with fs := rmtree tmp body.2.fs }
    match body.1 with
    | Except.error e => (Except.error e, st2)
    | Except.ok _ =>
      if enableOk then
        let st3 := { st2 with droneEnabled := st2.droneEnabled ++ [repo.full_name] }
        match drone_write_secret key repo.full_name postOk st3.droneStore with
        | (Except.ok _, ds2) => (Except.ok (), { st3 with droneStore := ds2 })
        | (Except.error e, ds2) => (Except.error e, { st3 with droneStore := ds2 })
      else
        (Except.error ("Failed to enable hook for " ++ repo.full_name), st2)

/-- Nothing at or below a removed directory survives `rmtree`. -/
theorem filter_rmtree (d : FsPath) (fs : Fs) :
    (rmtree d fs).filter (fun p => d.isPrefixOf p) = [] := by
  unfold rmtree
  rw [List.filter_filter]
  simp

/-- The with-block body never touches the environment variable. -/
theorem configureBody_gitSsh (callRet : List String → Int)
    (cdfErr : Option String) (repo : GinRepo)
    (username commit_message : String) (tmp : FsPath) (st : SysState) :
    ((configureBody callRet cdfErr repo username commit_message tmp st).2).gitSsh
      = st.gitSsh := by
  unfold configureBody
  rcases cdfErr with _ | e
  · simp only []
    split
    · rfl
    · rfl
  · rfl

/-- C4: for every invocation of `configure` that reaches step 3 (the
metadata fetch succeeded), no path at or below the temporary directory
exists in the final filesystem, on every exit path — normal success,
pipeline-step failure (`cdfErr`, `clean`), CI-enable failure or secret
failure. -/
theorem configure_removes_tempdir (repo : GinRepo) (tmp : FsPath)
    (cdfErr : Option String) (callRet : List String → Int)
    (enableOk : Bool) (postOk : String → Bool) (key : String)
    (username commit_message : String) (st : SysState) :
    ((configure (Except.ok repo) tmp cdfErr callRet enableOk postOk key
        username commit_message st).2).fs.filter (fun p => tmp.isPrefixOf p)
      = [] := by
  unfold configure
  simp only []
  split
  · simp [filter_rmtree]
  · split
    · split
      · simp [filter_rmtree]
      · simp [filter_rmtree]
    · simp [filter_rmtree]

/-- C5: when step 1 (the metadata fetch) fails, `configure` raises
`ServiceError` and the whole state — filesystem, git configuration,
Drone registrations and secrets — is exactly the starting state. -/
theorem configure_meta_failure_no_side_effects (e : String) (tmp : FsPath)
    (cdfErr : Option String) (callRet : List String → Int)
    (enableOk : Bool) (postOk : String → Bool) (key : String)
    (username commit_message : String) (st : SysState) :
    configure (Except.error e) tmp cdfErr callRet enableOk postOk key
        username commit_message st
      = (Except.error ("ServiceError: " ++ e), st) := rfl

/-- C9: neither `gin_clone` nor `push` inspects the exit codes of its git
subprocesses: their results are identical under any two exit-code
oracles, they signal no failure in their return type, and `push` leaves
the tracked state exactly as a successful no-op would. -/
theorem git_exit_codes_invisible (callRet1 callRet2 : List String → Int)
    (repo : GinRepo) (author : String) (path : FsPath)
    (commit_message : String) (st : SysState) :
    gin_clone callRet1 repo author path st = gin_clone callRet2 repo author path st
    ∧ push callRet1 path commit_message st = push callRet2 path commit_message st
    ∧ push callRet1 path commit_message st = st :=
  ⟨rfl, rfl, rfl⟩

/-- C8: counter-evidence.  A successful run of `configure` from a state
with no `GIT_SSH_COMMAND` set finishes with the variable still set to
the key-file command: the git-authentication configuration is not
restored after the call. -/
theorem configure_git_ssh_counterexample :
    ((configure (Except.ok ⟨"r", "u/r", "url"⟩) ["tmp0"] none (fun _ => 0)
        true (fun _ => true) "KEY" "u" "msg" ⟨[], none, [], []⟩).2).gitSsh
      = some ("ssh -i " ++ sshKeyPath)
    ∧ ((configure (Except.ok ⟨"r", "u/r", "url"⟩) ["tmp0"] none (fun _ => 0)
        true (fun _ => true) "KEY" "u" "msg" ⟨[], none, [], []⟩).2).gitSsh
      ≠ (⟨[], none, [], []⟩ : SysState).gitSsh := by
  constructor
  · rfl
  · intro h
    rw [show ((configure (Except.ok ⟨"r", "u/r", "url"⟩) ["tmp0"] none (fun _ => 0)
        true (fun _ => true) "KEY" "u" "msg" ⟨[], none, [], []⟩).2).gitSsh
      = some ("ssh -i " ++ sshKeyPath) from rfl] at h
    exact Option.noConfusion h

/-- C8 (amended): the `GIT_SSH_COMMAND` configuration made in step 2
persists: whenever step 1 succeeds, the final state carries the variable
set to the key-file command on every exit path, rather than being
restored to its previous value. -/
theorem configure_git_ssh_persists (repo : GinRepo) (tmp : FsPath)
    (cdfErr : Option String) (callRet : List String → Int)
    (enableOk : Bool) (postOk : String → Bool) (key : String)
    (username commit_message : String) (st : SysState) :
    ((configure (Except.ok repo) tmp cdfErr callRet enableOk postOk key
        username commit_message st).2).gitSsh
      = some ("ssh -i " ++ sshKeyPath) := by
  unfold configure
  simp only []
  split
  · show ((configureBody callRet cdfErr repo username commit_message tmp _).2).gitSsh = _
    rw [configureBody_gitSsh]
  · split
    · split
      · show ((configureBody callRet cdfErr repo username commit_message tmp _).2).gitSsh = _
        rw [configureBody_gitSsh]
      · show ((configureBody callRet cdfErr repo username commit_message tmp _).2).gitSsh = _
        rw [configureBody_gitSsh]
    · show ((configureBody callRet cdfErr repo username commit_message tmp _).2).gitSsh = _
      rw [configureBody_gitSsh]

end GinProc
